import Mathlib

/-!
Shallow embedding of the response-synthesis core of the kosma-ai-aggregator
backend (`backend/services/synthesisService.js`), together with theorems
checking the natural-language specification against it.

Modelling conventions:
* JavaScript strings are Lean `String`s; `s.length` (UTF-16 code units in JS)
  is modelled by the character count, which agrees on the ASCII inputs used.
* JavaScript numbers are idealised as exact rationals; the one genuinely
  non-rational value the code can produce, `NaN` (from `0/0` and its
  propagation through `+`, `*`, `Math.round` and comparisons), is tracked
  explicitly: a JS number is an `Option ℚ` with `none` standing for `NaN`.
* JS `Set` objects are modelled as `Finset String` (the code only uses
  `.size` and `.has`, both order-independent).
* The input of `synthesizeResponses` is an association list from provider
  name to entry, in object-insertion (= registration) order; an entry is
  either a plain string response or an error object (`{ error: true, ... }`
  as built by `backend/server.js`), so the JS guard
  `!response.error && typeof response === 'string'` holds exactly for the
  string entries.
-/

/-- Character-list splitter: cut at every character satisfying `isSep`,
producing the (possibly empty) chunks between separators, exactly like
JS `String.prototype.split` with a single-character class.  (The source
splits on `/\s+/` and `/[.!?]+/`, i.e. on *runs* of separators; the only
difference is extra empty chunks, which every caller filters away by a
length bound, so the filtered results coincide.) -/
def splitChars (isSep : Char → Bool) : List Char → List Char → List (List Char)
  | acc, [] => [acc.reverse]
  | acc, c :: cs =>
    if isSep c then acc.reverse :: splitChars isSep [] cs
    else splitChars isSep (c :: acc) cs

/-- JS `text.split(sep-class)` on a `String`. -/
def jsSplit (isSep : Char → Bool) (text : String) : List String :=
  (splitChars isSep [] text.data).map String.mk

/-- JS `String.prototype.toLowerCase` (per-character lowering; the inputs of
interest are ASCII). -/
def jsToLower (s : String) : String :=
  String.mk (s.data.map Char.toLower)

/-- JS `String.prototype.toUpperCase` on a single-character usage site. -/
def jsToUpper (s : String) : String :=
  String.mk (s.data.map Char.toUpper)

/-- JS `String.prototype.trim`: strip whitespace from both ends. -/
def jsTrim (s : String) : String :=
  String.mk (((s.data.dropWhile Char.isWhitespace).reverse.dropWhile Char.isWhitespace).reverse)

/-- Whether `pat` occurs at the head of `cs`. -/
def charsStartWith : List Char → List Char → Bool
  | [], _ => true
  | _ :: _, [] => false
  | p :: ps, c :: cs => p == c && charsStartWith ps cs

/-- Whether `pat` occurs anywhere in `cs` (JS `String.prototype.includes`). -/
def charsContain (pat : List Char) : List Char → Bool
  | [] => pat.isEmpty
  | c :: cs => charsStartWith pat (c :: cs) || charsContain pat cs

/-- JS `text.includes(pat)`. -/
def jsIncludes (text pat : String) : Bool :=
  charsContain pat.data text.data

/-- The token list of a text: lowercase, split on whitespace, keep words of
length `> 2` (source: `text.toLowerCase().split(/\s+/).filter(word =>
word.length > 2)`). -/
def tokens (text : String) : List String :=
  (jsSplit Char.isWhitespace (jsToLower text)).filter (fun word => word.length > 2)

/-- The JS `Set` of tokens of a text, modelled as a duplicate-free list
(the code only uses `.size` and `.has`, so only the underlying set matters). -/
def wordSet (text : String) : List String :=
  (tokens text).dedup

/-- A JS number: `none` is `NaN`, `some q` an (idealised exact) finite value. -/
abbrev JsNum := Option ℚ

/-- JS `+` on numbers: `NaN` is absorbing. -/
def jsAdd : JsNum → JsNum → JsNum
  | some a, some b => some (a + b)
  | _, _ => none

/-- JS `array.reduce((a, b) => a + b, 0)`. -/
def jsSum (l : List JsNum) : JsNum :=
  l.foldl jsAdd (some 0)

/-- JS `x / n` for a nonnegative array length `n`.  The `n = 0` case (division
producing `NaN`/`Infinity`) is modelled as `NaN`; every use site below has
`n ≥ 1`. -/
def jsDivNat : JsNum → Nat → JsNum
  | none, _ => none
  | some _, 0 => none
  | some q, (n + 1) => some (q / ((n + 1 : Nat) : ℚ))

/-- JS `x >= c` (false when `x` is `NaN`). -/
def jsGE (x : JsNum) (c : ℚ) : Bool :=
  match x with
  | none => false
  | some q => decide (c ≤ q)

/-- JS `x > c` (false when `x` is `NaN`). -/
def jsGT (x : JsNum) (c : ℚ) : Bool :=
  match x with
  | none => false
  | some q => decide (c < q)

/-- JS `Math.round` on a finite value: round half towards `+∞`. -/
def jsRound (q : ℚ) : ℤ :=
  ⌊q + 1 / 2⌋

/-- JS `Math.round(x * 100)` on a JS number (`Math.round(NaN) = NaN`). -/
def roundTimes100 (x : JsNum) : Option ℤ :=
  x.map (fun q => jsRound (q * 100))

/-- Decimal rendering of a confidence score inside a template literal
(`NaN` prints as `"NaN"`). -/
def jsNumStr (x : Option ℤ) : String :=
  match x with
  | none => "NaN"
  | some z => toString z

/-- `calculateTextSimilarity` (synthesisService.js lines 3–15): Jaccard
similarity of the two token sets; `0` when either text is empty (falsy);
`NaN` (= `0/0`) when both texts are non-empty but neither has a token of
length `≥ 3`. -/
def calculateTextSimilarity (text1 text2 : String) : JsNum :=
  if text1.isEmpty || text2.isEmpty then some 0
  else
    let words1 := wordSet text1
    let words2 := wordSet text2
    let inter := words1.filter (fun x => words2.contains x)
    let union := (words1 ++ words2).dedup
    if union.length = 0 then none
    else some ((inter.length : ℚ) / (union.length : ℚ))

/-- `splitIntoSentences` (lines 17–19): split on `.`/`!`/`?`, keep fragments
whose *trimmed* length exceeds 10. -/
def splitIntoSentences (text : String) : List String :=
  (jsSplit (fun c => c == '.' || c == '!' || c == '?') text).filter
    (fun s => (jsTrim s).length > 10)

/-- An entry of the input mapping of `synthesizeResponses`: either a plain
string response, or an error object (`{ error: true, message, source }` as
produced by `backend/server.js`); the JS guard
`!response.error && typeof response === 'string'` accepts exactly the
string entries. -/
inductive ProviderEntry where
  | str (text : String)
  | errObj
deriving DecidableEq

/-- A valid response as built in `synthesizeResponses` (lines 117–121):
capitalized source name, text, and its length. -/
structure ValidResponse where
  source : String
  text : String
  length : Nat
deriving DecidableEq

/-- JS `source.charAt(0).toUpperCase() + source.slice(1)`. -/
def capitalize (s : String) : String :=
  match s.data with
  | [] => ""
  | c :: rest => String.mk (c.toUpper :: rest)

/-- The `validResponses` array of `synthesizeResponses` (lines 113–123):
the string entries, converted, in original (registration) order. -/
def validResponses (individualResponses : List (String × ProviderEntry)) : List ValidResponse :=
  individualResponses.filterMap (fun entry =>
    match entry.2 with
    | ProviderEntry.str text => some ⟨capitalize entry.1, text, text.length⟩
    | ProviderEntry.errObj => none)

/-- The `reduce` on line 160–162 picking the longest valid response
(`current.length > longest.length ? current : longest`, seeded with the
first element, so ties keep the earliest provider). -/
def longestResponse (head : ValidResponse) (rest : List ValidResponse) : ValidResponse :=
  rest.foldl (fun longest current => if current.length > longest.length then current else longest) head

/-- The `similarities` array (lines 148–154): similarity of every pair
`(i, j)` with `i < j`, in loop order. -/
def pairSimilarities : List ValidResponse → List JsNum
  | [] => []
  | r :: rest =>
    rest.map (fun other => calculateTextSimilarity r.text other.text) ++ pairSimilarities rest

/-- `avgSimilarity` (line 156): `similarities.reduce((a, b) => a + b, 0) /
similarities.length`. -/
def avgSimilarity (vrs : List ValidResponse) : JsNum :=
  jsDivNat (jsSum (pairSimilarities vrs)) (pairSimilarities vrs).length

/-- The indicator keywords of `extractKeyPoints` (line 26). -/
def indicators : List String :=
  ["recommend", "suggest", "important", "key", "should", "best", "main", "first", "consider"]

/-- `extractKeyPoints` (lines 21–37). -/
def extractKeyPoints (text : String) : List String :=
  ((splitIntoSentences text).filterMap (fun sentence =>
    let hasIndicator := indicators.any (fun indicator => jsIncludes (jsToLower sentence) indicator)
    if hasIndicator && sentence.length > 30 && sentence.length < 200 then
      some (jsTrim sentence)
    else none)).take 3

/-- `extractUniqueDetails` (lines 39–60): from every non-base response,
the sentences that are not `> 0.7`-similar to any base sentence and have
length strictly between 20 and 150, tagged with their source; first 3. -/
def extractUniqueDetails (baseResponse : ValidResponse) (allResponses : List ValidResponse) : List String :=
  let baseSentences := splitIntoSentences baseResponse.text
  ((allResponses.map (fun response =>
    if response.source == baseResponse.source then []
    else
      (splitIntoSentences response.text).filterMap (fun sentence =>
        let isUnique := !(baseSentences.any (fun baseSentence =>
          jsGT (calculateTextSimilarity sentence baseSentence) (7 / 10)))
        if isUnique && sentence.length > 20 && sentence.length < 150 then
          some (response.source ++ ": " ++ jsTrim sentence)
        else none))).flatten).take 3

/-- A sentence together with its source provider (`findCommonThemes`). -/
structure SentenceWithSource where
  text : String
  source : String
deriving DecidableEq

/-- `findCommonThemes` (lines 62–87).  The mutable `processedSentences` set
and the `themes` array are threaded through a fold; the JS `Set` is
modelled by a list queried with `contains` (duplicates in it are harmless). -/
def findCommonThemes (responses : List ValidResponse) : List String :=
  let allSentences := (responses.map (fun r =>
    (splitIntoSentences r.text).map (fun s => SentenceWithSource.mk s r.source))).flatten
  let step := fun (st : List String × List String) (sentence : SentenceWithSource) =>
    if st.2.contains sentence.text then st
    else
      let similar := allSentences.filter (fun other =>
        other.source != sentence.source &&
          jsGT (calculateTextSimilarity sentence.text other.text) (3 / 5))
      if similar.length > 0 then
        (st.1 ++ [jsTrim sentence.text], (st.2 ++ [sentence.text]) ++ similar.map (fun s => s.text))
      else st
  ((allSentences.foldl step ([], [])).1).take 4

/-- The antonym keyword table of `findDisagreements` (lines 93–97). -/
def contrastPairs : List (String × String) :=
  [("yes", "no"), ("should", "shouldn\x27t"), ("good", "bad"),
   ("recommend", "avoid"), ("best", "worst"), ("increase", "decrease"),
   ("positive", "negative"), ("agree", "disagree"), ("support", "oppose")]

/-- `findDisagreements` (lines 89–109). -/
def findDisagreements (responses : List ValidResponse) : List String :=
  (contrastPairs.filterMap (fun pair =>
    let hasWord1Sources := (responses.filter (fun r => jsIncludes (jsToLower r.text) pair.1)).map
      (fun r => r.source)
    let hasWord2Sources := (responses.filter (fun r => jsIncludes (jsToLower r.text) pair.2)).map
      (fun r => r.source)
    if hasWord1Sources.length > 0 && hasWord2Sources.length > 0 then
      some (String.intercalate ", " hasWord1Sources ++ " lean towards \"" ++ pair.1 ++
        "\" while " ++ String.intercalate ", " hasWord2Sources ++ " suggest \"" ++ pair.2 ++ "\"")
    else none)).take 2

/-- The result value of `synthesizeResponses`.  `confidenceScore` is a JS
number that the code computes as `Math.round(avgSimilarity * 100)` (or the
constants 0 / 50); `none` is `NaN`. -/
structure SynthesisResult where
  confidence : String
  confidenceScore : Option ℤ
  synthesizedAnswer : String
  approach : String
  sourcesUsed : List String
  reasoning : String
deriving DecidableEq

/-- One provider block of the comparative (low-overlap) answer
(lines 217–232). -/
def comparativeSection (response : ValidResponse) : String :=
  let keyPoints := extractKeyPoints response.text
  "**" ++ response.source ++ " approach:**\n" ++
  (if keyPoints.length > 0 then
      String.join (keyPoints.map (fun point => "• " ++ point ++ "\n"))
    else
      match splitIntoSentences response.text with
      | [] => ""
      | firstSentence :: _ => "• " ++ firstSentence ++ "\n") ++ "\n"

/-- `synthesizeResponses` (lines 111–245). -/
def synthesizeResponses (individualResponses : List (String × ProviderEntry)) : SynthesisResult :=
  match validResponses individualResponses with
  | [] =>
    ⟨"No Valid Responses", some 0,
      "All AI services failed to provide valid responses.", "error", [],
      "No successful responses received"⟩
  | [only] =>
    ⟨"Single Source", some 50, only.text, "single", [only.source],
      "Only one AI service provided a valid response"⟩
  | first :: second :: rest =>
    let vrs := first :: second :: rest
    let avg := avgSimilarity vrs
    let score := roundTimes100 avg
    if jsGE avg (7 / 10) then
      let baseResponse := longestResponse first (second :: rest)
      let uniqueDetails := extractUniqueDetails baseResponse vrs
      let synthesizedText :=
        if uniqueDetails.length > 0 then
          baseResponse.text ++ "\n\n**Additional insights:**\n" ++
            String.intercalate "\n" (uniqueDetails.map (fun detail => "• " ++ detail))
        else baseResponse.text
      ⟨"High Confidence", score, synthesizedText, "consensus",
        vrs.map (fun r => r.source),
        toString vrs.length ++ " models provided similar answers (" ++
          jsNumStr score ++ "% agreement)"⟩
    else if jsGE avg (3 / 10) then
      let commonThemes := findCommonThemes vrs
      let disagreements := findDisagreements vrs
      let synthesizedText :=
        "**Based on multiple AI perspectives:**\n\n" ++
        (if commonThemes.length > 0 then
            "**Common insights:**\n" ++
              String.join (commonThemes.map (fun theme => "• " ++ theme ++ "\n"))
          else "") ++
        (if disagreements.length > 0 then
            "\n**Different perspectives:**\n" ++
              String.join (disagreements.map (fun d => "• " ++ d ++ "\n"))
          else "")
      ⟨"Multiple Perspectives", score, synthesizedText, "balanced",
        vrs.map (fun r => r.source),
        "Models showed " ++ jsNumStr score ++ "% agreement with notable differences"⟩
    else
      let synthesizedText :=
        "**Different AI models suggest distinct approaches:**\n\n" ++
        String.join (vrs.map comparativeSection) ++
        "**Recommendation:** Consider combining elements from multiple approaches based on your specific context."
      ⟨"Diverse Approaches", score, synthesizedText, "comparative",
        vrs.map (fun r => r.source),
        "Models provided significantly different approaches (" ++
          jsNumStr score ++ "% agreement)"⟩

/-- The synthetic fallback text returned by `getMockAnthropicResponse` in
`backend/services/anthropicService.js` when no Anthropic API key is
configured (`prompt.substring(0, 30)` is the first 30 characters). -/
def mockAnthropicResponse (prompt : String) : String :=
  "Mock Anthropic (Claude) response: This is a simulated response to \"" ++
    String.mk (prompt.data.take 30) ++
    "...\" - Claude would typically provide thoughtful analysis with attention to nuance, safety considerations, and helpful step-by-step guidance."

/-! ### Spec-modelled definitions and concrete inputs used by the theorems -/

/-- Modelled from the spec: the spec's §7(c) mean, in which a pair containing
an empty text is "excluded from the mean" — only pairs whose two texts are
both non-empty are kept, in the same `i < j` loop order.  This is the
refinement target to compare with the implemented `pairSimilarities` /
`avgSimilarity`. -/
def specPairSimilarities : List ValidResponse → List JsNum
  | [] => []
  | r :: rest =>
    ((rest.filter (fun other => !r.text.isEmpty && !other.text.isEmpty)).map
      (fun other => calculateTextSimilarity r.text other.text)) ++ specPairSimilarities rest

/-- Modelled from the spec: arithmetic mean of the non-empty-pair
similarities. -/
def specMeanSimilarity (vrs : List ValidResponse) : JsNum :=
  jsDivNat (jsSum (specPairSimilarities vrs)) (specPairSimilarities vrs).length

/-- Three providers: two identical non-empty answers and one empty answer. -/
def cex2input : List (String × ProviderEntry) :=
  [("openai", ProviderEntry.str "alpha beta gamma"),
   ("anthropic", ProviderEntry.str "alpha beta gamma"),
   ("google", ProviderEntry.str "")]

/-- The prompt used in the C1 counterexample. -/
def cex1prompt : String := "What is the capital of France?"

/-- Input in which the anthropic entry is precisely the synthetic fallback
text produced by `getMockAnthropicResponse` (no Anthropic API key). -/
def cex1input : List (String × ProviderEntry) :=
  [("openai", ProviderEntry.str "Paris is the capital of France."),
   ("anthropic", ProviderEntry.str (mockAnthropicResponse cex1prompt))]

/-- Two responses whose token sets share 7 of 10 union tokens: the mean
pairwise similarity is exactly 0.70. -/
def wit5input : List (String × ProviderEntry) :=
  [("openai", ProviderEntry.str "aaa bbb ccc ddd eee fff ggg xxx yyy zzz"),
   ("anthropic", ProviderEntry.str "aaa bbb ccc ddd eee fff ggg")]

/-- Two valid responses, both non-empty, both without any token of length
`≥ 3`: the single pair similarity is `0/0 = NaN`. -/
def cex4input : List (String × ProviderEntry) :=
  [("openai", ProviderEntry.str "ab"), ("anthropic", ProviderEntry.str "cd")]

/-- Base text of the C6 counterexample: 14 shared 5-character tokens plus
two private 20-character tokens (125 characters, the longest response). -/
def a6text : String :=
  "tok01 tok02 tok03 tok04 tok05 tok06 tok07 tok08 tok09 tok10 tok11 tok12 tok13 tok14 aaaaaaaaaaaaaaaaaaaa bbbbbbbbbbbbbbbbbbbb"

/-- Other text of the C6 counterexample: the same 14 shared tokens plus four
private 3-character tokens (99 characters): its Jaccard similarity to
`a6text` is exactly 14/20 = 0.70. -/
def s6text : String :=
  "tok01 tok02 tok03 tok04 tok05 tok06 tok07 tok08 tok09 tok10 tok11 tok12 tok13 tok14 xxx yyy zzz www"

/-- Two providers at exactly 0.70 mean similarity (consensus branch). -/
def cex6input : List (String × ProviderEntry) :=
  [("openai", ProviderEntry.str a6text), ("anthropic", ProviderEntry.str s6text)]


/-! ### Lemmas about token sets and similarity -/

lemma wordSet_nodup (t : String) : (wordSet t).Nodup :=
  List.nodup_dedup _

lemma mem_wordSet {x : String} {t : String} : x ∈ wordSet t ↔ x ∈ tokens t :=
  List.mem_dedup

lemma contains_eq_decide_mem (l : List String) (x : String) :
    l.contains x = decide (x ∈ l) := by
  rw [Bool.eq_iff_iff]
  simp [List.contains_iff_exists_mem_beq, beq_iff_eq]

/-- The `intersection` length of `calculateTextSimilarity` is the card of the
finset intersection, provided the first list has no duplicates. -/
lemma interLength_eq (w1 w2 : List String) (h1 : w1.Nodup) :
    (w1.filter (fun x => w2.contains x)).length = (w1.toFinset ∩ w2.toFinset).card := by
  have hnd : (w1.filter (fun x => w2.contains x)).Nodup := h1.filter _
  rw [← List.toFinset_card_of_nodup hnd, List.toFinset_filter]
  congr 1
  ext x
  simp [contains_eq_decide_mem, Finset.mem_filter, List.mem_toFinset, Finset.mem_inter]

/-- The `union` length of `calculateTextSimilarity` is the card of the finset
union. -/
lemma unionLength_eq (w1 w2 : List String) :
    ((w1 ++ w2).dedup).length = (w1.toFinset ∪ w2.toFinset).card := by
  rw [← List.toFinset_append, List.card_toFinset]

/-- C8: Jaccard similarity as implemented is symmetric:
`calculateTextSimilarity(a, b) = calculateTextSimilarity(b, a)` for all texts
`a`, `b` (the empty-text guard, the intersection size and the union size are
all symmetric in the two arguments). -/
theorem similarity_symmetric (a b : String) :
    calculateTextSimilarity a b = calculateTextSimilarity b a := by
  unfold calculateTextSimilarity
  have hcomm : (b.isEmpty || a.isEmpty) = (a.isEmpty || b.isEmpty) := Bool.or_comm _ _
  rw [hcomm]
  by_cases h : (a.isEmpty || b.isEmpty) = true
  · simp [h]
  · have hu : ((wordSet a ++ wordSet b).dedup).length = ((wordSet b ++ wordSet a).dedup).length := by
      rw [unionLength_eq, unionLength_eq, Finset.union_comm]
    have hi : ((wordSet a).filter (fun x => (wordSet b).contains x)).length =
        ((wordSet b).filter (fun x => (wordSet a).contains x)).length := by
      rw [interLength_eq _ _ (wordSet_nodup a), interLength_eq _ _ (wordSet_nodup b),
        Finset.inter_comm]
    simp only [h, if_false, hu, hi]

/-- All pairs of non-empty texts without any `≥ 3`-character token hit the
`0/0` case. -/
lemma similarity_of_no_tokens {t1 t2 : String} (h1 : t1 ≠ "") (h2 : t2 ≠ "")
    (htok1 : tokens t1 = []) (htok2 : tokens t2 = []) :
    calculateTextSimilarity t1 t2 = none := by
  have hE1 : t1.isEmpty = false := by
    rw [Bool.eq_false_iff]
    intro h; exact h1 ((String.isEmpty_iff t1).mp h)
  have hE2 : t2.isEmpty = false := by
    rw [Bool.eq_false_iff]
    intro h; exact h2 ((String.isEmpty_iff t2).mp h)
  unfold calculateTextSimilarity
  simp [hE1, hE2, wordSet, htok1, htok2]

/-- C3 (counterexample): the claim "identical non-empty texts yield 1.0 and
disjoint-token texts yield 0.0" fails: for the identical non-empty text
`"ab"` (which has no token of length `≥ 3`) the similarity is `0/0 = NaN`,
not `1.0`; likewise the token-disjoint non-empty pair `"ab"`/`"cd"` yields
`NaN`, not `0.0`. -/
theorem identical_tokenless_not_one_cex :
    "ab" ≠ "" ∧ calculateTextSimilarity "ab" "ab" = none ∧
      calculateTextSimilarity "ab" "ab" ≠ some 1 ∧
      calculateTextSimilarity "ab" "cd" = none ∧
      calculateTextSimilarity "ab" "cd" ≠ some 0 := by
  refine ⟨by decide, by decide, by decide, by decide, by decide⟩

/-- C3 (amended): identical non-empty texts *with at least one token of
length `≥ 3`* yield similarity exactly 1; texts sharing no token, where at
least one side has a token (so the union is non-empty), yield exactly 0;
and identical-or-not non-empty texts in which neither side has any token
yield `NaN` (`0/0`), the behaviour the original claim missed. -/
theorem similarity_identity_and_disjoint :
    (∀ t : String, t ≠ "" → tokens t ≠ [] → calculateTextSimilarity t t = some 1) ∧
    (∀ t1 t2 : String, (∀ x ∈ tokens t1, x ∉ tokens t2) →
      (tokens t1 ≠ [] ∨ tokens t2 ≠ []) → calculateTextSimilarity t1 t2 = some 0) ∧
    (∀ t1 t2 : String, t1 ≠ "" → t2 ≠ "" → tokens t1 = [] → tokens t2 = [] →
      calculateTextSimilarity t1 t2 = none) := by
  refine ⟨?_, ?_, fun t1 t2 h1 h2 htok1 htok2 => similarity_of_no_tokens h1 h2 htok1 htok2⟩
  · intro t hne htok
    have hE : t.isEmpty = false := by
      rw [Bool.eq_false_iff]
      intro h; exact hne ((String.isEmpty_iff t).mp h)
    have hw : wordSet t ≠ [] := by
      intro h0
      exact htok ((List.dedup_eq_nil _).mp h0)
    have hfil : (wordSet t).filter (fun x => (wordSet t).contains x) = wordSet t := by
      rw [List.filter_eq_self]
      intro a ha
      rw [contains_eq_decide_mem]
      exact decide_eq_true ha
    have hun : ((wordSet t ++ wordSet t).dedup).length = (wordSet t).length := by
      rw [unionLength_eq, Finset.union_self, List.toFinset_card_of_nodup (wordSet_nodup t)]
    have hlen : (wordSet t).length ≠ 0 := by
      simpa [List.length_eq_zero] using hw
    unfold calculateTextSimilarity
    simp only [hE, Bool.or_self, Bool.false_eq_true, if_false, hfil, hun, hlen,
      if_neg hlen]
    rw [div_self (by exact_mod_cast hlen)]
  · intro t1 t2 hdisj hne
    by_cases hE : (t1.isEmpty || t2.isEmpty) = true
    · unfold calculateTextSimilarity
      rw [if_pos hE]
    · have hfil : (wordSet t1).filter (fun x => (wordSet t2).contains x) = [] := by
        rw [List.filter_eq_nil_iff]
        intro a ha hc
        rw [contains_eq_decide_mem] at hc
        exact hdisj a (mem_wordSet.mp ha) (mem_wordSet.mp (of_decide_eq_true hc))
      have happ : wordSet t1 ++ wordSet t2 ≠ [] := by
        intro h0
        rcases List.append_eq_nil.mp h0 with ⟨ha, hb⟩
        rcases hne with h | h
        · exact h ((List.dedup_eq_nil _).mp ha)
        · exact h ((List.dedup_eq_nil _).mp hb)
      have hlen : ((wordSet t1 ++ wordSet t2).dedup).length ≠ 0 := by
        intro h0
        exact happ ((List.dedup_eq_nil _).mp (List.length_eq_zero.mp h0))
      unfold calculateTextSimilarity
      rw [if_neg (by simpa using hE)]
      simp only [hfil, List.length_nil, Nat.cast_zero, zero_div, if_neg hlen]

/-- Witness for `similarity_identity_and_disjoint` at concrete inputs. -/
theorem similarity_identity_and_disjoint_witness :
    calculateTextSimilarity "aaa bbb" "aaa bbb" = some 1 ∧
    calculateTextSimilarity "aaa" "bbb" = some 0 ∧
    calculateTextSimilarity "ab" "cd" = none :=
  ⟨similarity_identity_and_disjoint.1 "aaa bbb" (by decide) (by decide),
   similarity_identity_and_disjoint.2.1 "aaa" "bbb" (by decide) (Or.inl (by decide)),
   similarity_identity_and_disjoint.2.2 "ab" "cd" (by decide) (by decide) (by decide) (by decide)⟩

/-! ### C2: empty texts and the mean over pairs -/

/-- The implemented `similarities` array counts every `i < j` pair. -/
lemma two_mul_pairSimilarities_length (vrs : List ValidResponse) :
    2 * (pairSimilarities vrs).length = vrs.length * (vrs.length - 1) := by
  induction vrs with
  | nil => rfl
  | cons r rest ih =>
    simp only [pairSimilarities, List.length_append, List.length_map, List.length_cons]
    obtain ⟨n, hn⟩ : ∃ n, rest.length = n := ⟨_, rfl⟩
    rw [hn] at ih ⊢
    cases n with
    | zero =>
      simp only [Nat.zero_sub, Nat.mul_zero] at ih
      omega
    | succ m =>
      rw [Nat.succ_sub_one] at ih
      have hgoal : (m + 1 + 1) - 1 = m + 1 := rfl
      rw [hgoal]
      nlinarith [ih]

/-- With at least two valid responses there is at least one pair, so the
division computing the mean never has denominator 0. -/
lemma pairSimilarities_length_pos (vrs : List ValidResponse) (h : 2 ≤ vrs.length) :
    0 < (pairSimilarities vrs).length := by
  by_contra h0
  have hlen0 : (pairSimilarities vrs).length = 0 := by omega
  have h2 := two_mul_pairSimilarities_length vrs
  rw [hlen0, Nat.mul_zero] at h2
  have hpos : 0 < vrs.length * (vrs.length - 1) :=
    Nat.mul_pos (by omega) (by omega)
  rw [← h2] at hpos
  exact lt_irrefl 0 hpos

/-- C2 (counterexample): the claim says a pair with an empty text is
*excluded* from the arithmetic mean.  On three valid responses — two
identical non-empty texts and one empty text — the code's mean divides by
all 3 pairs and yields 1/3 (score 33), whereas the spec's
excluded-pair mean is 1: the zero-valued empty pairs were included. -/
theorem empty_pair_included_in_mean_cex :
    avgSimilarity (validResponses cex2input) = some (1 / 3) ∧
    specMeanSimilarity (validResponses cex2input) = some 1 ∧
    avgSimilarity (validResponses cex2input) ≠ specMeanSimilarity (validResponses cex2input) ∧
    (synthesizeResponses cex2input).confidenceScore = some 33 := by
  refine ⟨by with_unfolding_all decide, by with_unfolding_all decide,
    by with_unfolding_all decide, by with_unfolding_all decide⟩

/-- C2 (amended): a pair with an empty text gets similarity 0 but is *kept*
in the mean: `calculateTextSimilarity` returns 0 whenever either text is
empty, the `similarities` array has an entry for every one of the
`n·(n-1)/2` pairs, and — since the mean is only computed when there are at
least 2 valid responses — its denominator is positive, so no division by
zero occurs. -/
theorem empty_similarity_zero_and_all_pairs_counted :
    (∀ t1 t2 : String, (t1.isEmpty || t2.isEmpty) = true →
      calculateTextSimilarity t1 t2 = some 0) ∧
    (∀ vrs : List ValidResponse,
      2 * (pairSimilarities vrs).length = vrs.length * (vrs.length - 1)) ∧
    (∀ vrs : List ValidResponse, 2 ≤ vrs.length → 0 < (pairSimilarities vrs).length) :=
  ⟨fun t1 t2 h => by unfold calculateTextSimilarity; rw [if_pos h],
   two_mul_pairSimilarities_length,
   pairSimilarities_length_pos⟩

/-- Witness for `empty_similarity_zero_and_all_pairs_counted`. -/
theorem empty_similarity_zero_and_all_pairs_counted_witness :
    calculateTextSimilarity "" "alpha beta" = some 0 ∧
    0 < (pairSimilarities [⟨"Openai", "x", 1⟩, ⟨"Google", "y", 1⟩]).length :=
  ⟨empty_similarity_zero_and_all_pairs_counted.1 "" "alpha beta" (by decide),
   empty_similarity_zero_and_all_pairs_counted.2.2 _ (by decide)⟩

/-! ### C1: sourcesUsed; C7: single response; C9: determinism -/

/-- In every branch, `sourcesUsed` is the map of `source` over the valid
(string-entry) responses, in original registration order. -/
lemma sourcesUsed_eq (m : List (String × ProviderEntry)) :
    (synthesizeResponses m).sourcesUsed = (validResponses m).map (fun r => r.source) := by
  unfold synthesizeResponses
  cases hv : validResponses m with
  | nil => rfl
  | cons r rest =>
    cases rest with
    | nil => rfl
    | cons r2 rest2 =>
      simp only []
      split
      · rfl
      · split
        · rfl
        · rfl

/-- C1 (counterexample): a provider whose response is the adapter's
synthetic fallback (mock) text still appears in `sourcesUsed` — the claim
says synthetic providers are excluded from `sourcesUsed`, but the code has
no synthetic marker: a mock response is an ordinary string and passes the
`typeof response === 'string'` filter.  Here anthropic answers with
`mockAnthropicResponse` yet `sourcesUsed` is `["Openai", "Anthropic"]`. -/
theorem synthetic_in_sourcesUsed_cex :
    (synthesizeResponses cex1input).sourcesUsed = ["Openai", "Anthropic"] ∧
    "Anthropic" ∈ (synthesizeResponses cex1input).sourcesUsed := by
  have h : (synthesizeResponses cex1input).sourcesUsed = ["Openai", "Anthropic"] := by
    rw [sourcesUsed_eq]
    decide
  exact ⟨h, by rw [h]; decide⟩

/-- C1 (amended): `synthesizeResponses` cannot and does not exclude
synthetic fallback text (no synthetic marker reaches it): `sourcesUsed` is
always exactly the providers whose entries are plain strings — error-object
entries excluded, mock strings included — capitalized, in original
registration order. -/
theorem sourcesUsed_exactly_string_entries (m : List (String × ProviderEntry)) :
    (synthesizeResponses m).sourcesUsed = (validResponses m).map (fun r => r.source) :=
  sourcesUsed_eq m

/-- C7: with exactly one valid response the result is the Single tier with
fixed score 50, `sourcesUsed` containing exactly that provider, and the
answer equal to that response's text verbatim. -/
theorem single_valid_response (m : List (String × ProviderEntry)) (r : ValidResponse)
    (h : validResponses m = [r]) :
    synthesizeResponses m =
      ⟨"Single Source", some 50, r.text, "single", [r.source],
        "Only one AI service provided a valid response"⟩ := by
  unfold synthesizeResponses
  rw [h]

/-- Witness for `single_valid_response`: one string entry and one error
entry. -/
theorem single_valid_response_witness :
    synthesizeResponses
        [("openai", ProviderEntry.str "hello world"), ("anthropic", ProviderEntry.errObj)] =
      ⟨"Single Source", some 50, "hello world", "single", ["Openai"],
        "Only one AI service provided a valid response"⟩ :=
  single_valid_response _ ⟨"Openai", "hello world", 11⟩ (by decide)

/-- C9: `synthesizeResponses` is a pure function of the input mapping — the
source reads no randomness, clock or external state (`Math.random` appears
only inside the provider adapters' mock delays, outside this function) — so
two runs on the same mapping agree in every field of the result. -/
theorem synthesizeResponses_deterministic (m1 m2 : List (String × ProviderEntry))
    (h : m1 = m2) :
    (synthesizeResponses m1).synthesizedAnswer = (synthesizeResponses m2).synthesizedAnswer ∧
    (synthesizeResponses m1).confidence = (synthesizeResponses m2).confidence ∧
    (synthesizeResponses m1).confidenceScore = (synthesizeResponses m2).confidenceScore ∧
    (synthesizeResponses m1).approach = (synthesizeResponses m2).approach ∧
    (synthesizeResponses m1).sourcesUsed = (synthesizeResponses m2).sourcesUsed ∧
    (synthesizeResponses m1).reasoning = (synthesizeResponses m2).reasoning := by
  subst h
  exact ⟨rfl, rfl, rfl, rfl, rfl, rfl⟩

/-- Witness for `synthesizeResponses_deterministic` at a concrete mapping. -/
theorem synthesizeResponses_deterministic_witness :
    (synthesizeResponses [("openai", ProviderEntry.str "fixed canned response")]).synthesizedAnswer =
      (synthesizeResponses [("openai", ProviderEntry.str "fixed canned response")]).synthesizedAnswer ∧
    (synthesizeResponses [("openai", ProviderEntry.str "fixed canned response")]).confidence =
      (synthesizeResponses [("openai", ProviderEntry.str "fixed canned response")]).confidence ∧
    (synthesizeResponses [("openai", ProviderEntry.str "fixed canned response")]).confidenceScore =
      (synthesizeResponses [("openai", ProviderEntry.str "fixed canned response")]).confidenceScore ∧
    (synthesizeResponses [("openai", ProviderEntry.str "fixed canned response")]).approach =
      (synthesizeResponses [("openai", ProviderEntry.str "fixed canned response")]).approach ∧
    (synthesizeResponses [("openai", ProviderEntry.str "fixed canned response")]).sourcesUsed =
      (synthesizeResponses [("openai", ProviderEntry.str "fixed canned response")]).sourcesUsed ∧
    (synthesizeResponses [("openai", ProviderEntry.str "fixed canned response")]).reasoning =
      (synthesizeResponses [("openai", ProviderEntry.str "fixed canned response")]).reasoning :=
  synthesizeResponses_deterministic _ _ rfl

/-! ### C5: tier thresholds -/

/-- C5: with at least 2 valid responses and a defined (non-`NaN`) mean
pairwise similarity `q`, the tier/approach follows the closed/half-open
boundaries of the code (`>= 0.7`, `else >= 0.3`, `else`): `q ≥ 0.70` gives
High/consensus (so exactly 0.70 is High), `0.30 ≤ q < 0.70` gives
Medium/balanced (so exactly 0.30 is Medium, never Low), `q < 0.30` gives
Low/comparative; in all three cases `confidenceScore = round(q·100)`.
(The code renders tier High as the string `"High Confidence"`, Medium as
`"Multiple Perspectives"` and Low as `"Diverse Approaches"`.) -/
theorem tier_boundaries (m : List (String × ProviderEntry)) (q : ℚ)
    (h2 : 2 ≤ (validResponses m).length)
    (havg : avgSimilarity (validResponses m) = some q) :
    (7 / 10 ≤ q →
      (synthesizeResponses m).confidence = "High Confidence" ∧
      (synthesizeResponses m).approach = "consensus" ∧
      (synthesizeResponses m).confidenceScore = some (jsRound (q * 100))) ∧
    (3 / 10 ≤ q → q < 7 / 10 →
      (synthesizeResponses m).confidence = "Multiple Perspectives" ∧
      (synthesizeResponses m).approach = "balanced" ∧
      (synthesizeResponses m).confidenceScore = some (jsRound (q * 100))) ∧
    (q < 3 / 10 →
      (synthesizeResponses m).confidence = "Diverse Approaches" ∧
      (synthesizeResponses m).approach = "comparative" ∧
      (synthesizeResponses m).confidenceScore = some (jsRound (q * 100))) := by
  cases hv : validResponses m with
  | nil =>
    rw [hv] at h2
    simp at h2
  | cons r1 tail =>
    cases tail with
    | nil =>
      rw [hv] at h2
      simp at h2
    | cons r2 rest =>
      rw [hv] at havg
      refine ⟨fun h7 => ?_, fun h3 hl7 => ?_, fun hl3 => ?_⟩
      · unfold synthesizeResponses
        rw [hv]
        dsimp only
        rw [havg]
        unfold jsGE
        rw [if_pos (by simpa using h7)]
        exact ⟨rfl, rfl, rfl⟩
      · unfold synthesizeResponses
        rw [hv]
        dsimp only
        rw [havg]
        unfold jsGE
        rw [if_neg (by simpa using not_le.mpr hl7), if_pos (by simpa using h3)]
        exact ⟨rfl, rfl, rfl⟩
      · unfold synthesizeResponses
        rw [hv]
        dsimp only
        rw [havg]
        unfold jsGE
        rw [if_neg (by simpa using not_le.mpr (lt_trans hl3 (by norm_num))),
          if_neg (by simpa using not_le.mpr hl3)]
        exact ⟨rfl, rfl, rfl⟩

/-- Witness for `tier_boundaries`: a mean of exactly 0.70 lands in the High
tier with score 70. -/
theorem tier_boundaries_witness :
    (synthesizeResponses wit5input).confidence = "High Confidence" ∧
    (synthesizeResponses wit5input).approach = "consensus" ∧
    (synthesizeResponses wit5input).confidenceScore = some 70 := by
  have h := (tier_boundaries wit5input (7 / 10) (by decide)
    (by with_unfolding_all decide)).1 (le_refl _)
  refine ⟨h.1, h.2.1, ?_⟩
  rw [h.2.2]
  have : jsRound (7 / 10 * 100) = 70 := by with_unfolding_all decide
  rw [this]

/-! ### C4: the result is well-formed; score bounds and the NaN corner -/

/-- If the first text is empty or has a token, the pair's similarity is a
defined rational in `[0, 1]` (the `0/0` case needs *both* token sets
empty with both texts non-empty). -/
lemma similarity_bounds {t1 t2 : String}
    (h1 : t1 = "" ∨ tokens t1 ≠ []) :
    ∃ s : ℚ, calculateTextSimilarity t1 t2 = some s ∧ 0 ≤ s ∧ s ≤ 1 := by
  by_cases hE : (t1.isEmpty || t2.isEmpty) = true
  · refine ⟨0, ?_, le_refl 0, by norm_num⟩
    unfold calculateTextSimilarity
    rw [if_pos hE]
  · have hf : (t1.isEmpty || t2.isEmpty) = false := by
      cases hb : (t1.isEmpty || t2.isEmpty) with
      | false => rfl
      | true => exact absurd hb hE
    obtain ⟨hf1, hf2⟩ := Bool.or_eq_false_iff.mp hf
    have hne1 : t1 ≠ "" := by
      intro h
      subst h
      exact absurd hf1 (by decide)
    have htok1 : tokens t1 ≠ [] := h1.resolve_left hne1
    have hw1 : wordSet t1 ≠ [] := fun h0 => htok1 ((List.dedup_eq_nil _).mp h0)
    have happ : wordSet t1 ++ wordSet t2 ≠ [] := by
      intro h0
      exact hw1 (List.append_eq_nil.mp h0).1
    have hulen : ((wordSet t1 ++ wordSet t2).dedup).length ≠ 0 := by
      intro h0
      exact happ ((List.dedup_eq_nil _).mp (List.length_eq_zero.mp h0))
    have hile : ((wordSet t1).filter (fun x => (wordSet t2).contains x)).length ≤
        ((wordSet t1 ++ wordSet t2).dedup).length := by
      rw [interLength_eq _ _ (wordSet_nodup t1), unionLength_eq]
      exact Finset.card_le_card Finset.inter_subset_union
    have hupos : (0 : ℚ) < (((wordSet t1 ++ wordSet t2).dedup).length : ℚ) := by
      exact_mod_cast Nat.pos_of_ne_zero hulen
    refine ⟨(((wordSet t1).filter (fun x => (wordSet t2).contains x)).length : ℚ) /
        (((wordSet t1 ++ wordSet t2).dedup).length : ℚ), ?_, by positivity, ?_⟩
    · unfold calculateTextSimilarity
      rw [if_neg hE]
      dsimp only
      rw [if_neg hulen]
    · rw [div_le_one hupos]
      exact_mod_cast hile

/-- Folding JS `+` over defined values in `[0, 1]` yields a defined sum
between the seed and the seed plus the list length. -/
lemma foldl_jsAdd_bounds :
    ∀ (l : List JsNum), (∀ x ∈ l, ∃ s : ℚ, x = some s ∧ 0 ≤ s ∧ s ≤ 1) →
      ∀ a : ℚ, ∃ S : ℚ, l.foldl jsAdd (some a) = some S ∧ a ≤ S ∧ S ≤ a + l.length
  | [], _, a => ⟨a, rfl, le_refl _, by simp⟩
  | x :: xs, h, a => by
    obtain ⟨s, hx, h0, h1⟩ := h x (List.mem_cons_self _ _)
    obtain ⟨S, hS, hlo, hhi⟩ :=
      foldl_jsAdd_bounds xs (fun y hy => h y (List.mem_cons_of_mem _ hy)) (a + s)
    refine ⟨S, ?_, by linarith, ?_⟩
    · rw [List.foldl_cons, hx]
      exact hS
    · have : ((x :: xs).length : ℚ) = (xs.length : ℚ) + 1 := by
        push_cast [List.length_cons]
        ring
      rw [this]
      linarith

/-- Every entry of the `similarities` array is a defined rational in
`[0, 1]` when every valid text is empty or has a token. -/
lemma pairSimilarities_bounds (vrs : List ValidResponse)
    (h : ∀ r ∈ vrs, r.text = "" ∨ tokens r.text ≠ []) :
    ∀ x ∈ pairSimilarities vrs, ∃ s : ℚ, x = some s ∧ 0 ≤ s ∧ s ≤ 1 := by
  induction vrs with
  | nil =>
    intro x hx
    simp [pairSimilarities] at hx
  | cons r rest ih =>
    intro x hx
    simp only [pairSimilarities, List.mem_append, List.mem_map] at hx
    rcases hx with ⟨other, _, rfl⟩ | hx
    · exact similarity_bounds (h r (List.mem_cons_self _ _))
    · exact ih (fun y hy => h y (List.mem_cons_of_mem _ hy)) x hx

/-- With at least two valid responses whose texts are empty-or-tokenised,
the mean similarity is a defined rational in `[0, 1]`. -/
lemma avgSimilarity_bounds (vrs : List ValidResponse)
    (h : ∀ r ∈ vrs, r.text = "" ∨ tokens r.text ≠ []) (h2 : 2 ≤ vrs.length) :
    ∃ q : ℚ, avgSimilarity vrs = some q ∧ 0 ≤ q ∧ q ≤ 1 := by
  obtain ⟨S, hS, h0, h1⟩ :=
    foldl_jsAdd_bounds (pairSimilarities vrs) (pairSimilarities_bounds vrs h) 0
  have hpos := pairSimilarities_length_pos vrs h2
  obtain ⟨k, hk⟩ : ∃ k, (pairSimilarities vrs).length = k + 1 :=
    ⟨_, (Nat.succ_pred_eq_of_pos hpos).symm⟩
  have hcast : (0 : ℚ) < ((k + 1 : Nat) : ℚ) := by positivity
  refine ⟨S / ((k + 1 : Nat) : ℚ), ?_, by positivity, ?_⟩
  · unfold avgSimilarity jsSum
    rw [hS, hk]
    rfl
  · rw [div_le_one hcast]
    rw [hk] at h1
    push_cast at h1 ⊢
    linarith

/-- `Math.round(q·100)` lands in `[0, 100]` for `q ∈ [0, 1]`. -/
lemma jsRound_bounds (q : ℚ) (h0 : 0 ≤ q) (h1 : q ≤ 1) :
    0 ≤ jsRound (q * 100) ∧ jsRound (q * 100) ≤ 100 := by
  unfold jsRound
  constructor
  · exact Int.le_floor.mpr (by push_cast; linarith)
  · have hlt : (⌊q * 100 + 1 / 2⌋ : ℤ) < 101 := Int.floor_lt.mpr (by push_cast; linarith)
    omega

/-- C4 (counterexample): `confidenceScore` is not always an integer in
`[0, 100]` — on two valid token-less responses the mean similarity is `NaN`
and `Math.round(NaN * 100)` is `NaN`. -/
theorem confidenceScore_nan_cex :
    (synthesizeResponses cex4input).confidenceScore = none ∧
    ¬ ∃ n : ℤ, (synthesizeResponses cex4input).confidenceScore = some n ∧
      0 ≤ n ∧ n ≤ 100 := by
  have h : (synthesizeResponses cex4input).confidenceScore = none := by
    with_unfolding_all decide
  refine ⟨h, ?_⟩
  rintro ⟨n, hn, -, -⟩
  rw [h] at hn
  exact Option.noConfusion hn

/-- C4 (amended): `synthesizeResponses` never throws (it is a total
function) and always returns a result with one of the five
approach/confidence labels; and provided every valid text is empty or has a
token of length `≥ 3` (ruling out the `NaN` corner of the counterexample),
`confidenceScore` is an integer in `[0, 100]` — including when every
provider entry is an error. -/
theorem synthesis_wellformed_score_bounds (m : List (String × ProviderEntry))
    (h : ∀ r ∈ validResponses m, r.text = "" ∨ tokens r.text ≠ []) :
    (synthesizeResponses m).approach ∈
      (["error", "single", "consensus", "balanced", "comparative"] : List String) ∧
    (synthesizeResponses m).confidence ∈
      (["No Valid Responses", "Single Source", "High Confidence",
        "Multiple Perspectives", "Diverse Approaches"] : List String) ∧
    ∃ n : ℤ, (synthesizeResponses m).confidenceScore = some n ∧ 0 ≤ n ∧ n ≤ 100 := by
  cases hv : validResponses m with
  | nil =>
    unfold synthesizeResponses
    rw [hv]
    exact ⟨by dsimp only; decide, by dsimp only; decide, 0, rfl, by decide, by decide⟩
  | cons r1 tail =>
    cases tail with
    | nil =>
      unfold synthesizeResponses
      rw [hv]
      exact ⟨by dsimp only; decide, by dsimp only; decide, 50, rfl, by decide, by decide⟩
    | cons r2 rest =>
      have h2 : 2 ≤ (r1 :: r2 :: rest).length := by
        simp [List.length_cons]
      obtain ⟨q, hq, h0, h1⟩ := avgSimilarity_bounds (r1 :: r2 :: rest) (hv ▸ h) h2
      obtain ⟨hr0, hr1⟩ := jsRound_bounds q h0 h1
      unfold synthesizeResponses
      rw [hv]
      dsimp only
      rw [hq]
      split_ifs with hc1 hc2 <;>
        exact ⟨by dsimp only; decide, by dsimp only; decide, jsRound (q * 100), rfl, hr0, hr1⟩

/-- Witness for `synthesis_wellformed_score_bounds`: every provider entry an
error. -/
theorem synthesis_wellformed_score_bounds_witness :
    ∃ n : ℤ,
      (synthesizeResponses
        [("openai", ProviderEntry.errObj), ("anthropic", ProviderEntry.errObj),
         ("google", ProviderEntry.errObj)]).confidenceScore = some n ∧ 0 ≤ n ∧ n ≤ 100 :=
  (synthesis_wellformed_score_bounds _ (by decide)).2.2

/-! ### C6 and C10: structure of the consensus answer -/

/-- The `reduce` picking the longest response returns the *first* response
of maximal length: everything before it is strictly shorter, everything
after it is no longer. -/
lemma longestResponse_spec (head : ValidResponse) (rest : List ValidResponse) :
    ∃ pre post, head :: rest = pre ++ longestResponse head rest :: post ∧
      (∀ x ∈ pre, x.length < (longestResponse head rest).length) ∧
      (∀ x ∈ post, x.length ≤ (longestResponse head rest).length) := by
  induction rest generalizing head with
  | nil => exact ⟨[], [], rfl, by simp, by simp⟩
  | cons r rs ih =>
    by_cases hgt : r.length > head.length
    · have hstep : longestResponse head (r :: rs) = longestResponse r rs := by
        unfold longestResponse
        rw [List.foldl_cons, if_pos hgt]
      obtain ⟨pre, post, heq, hpre, hpost⟩ := ih r
      rw [hstep]
      cases pre with
      | nil =>
        rw [List.nil_append] at heq
        injection heq with h1 h2
        refine ⟨[head], post, ?_, ?_, hpost⟩
        · rw [List.singleton_append, ← h1, ← h2]
        · intro x hx
          rw [List.mem_singleton] at hx
          subst hx
          calc x.length < r.length := hgt
            _ = (longestResponse r rs).length := congrArg ValidResponse.length h1
      | cons p ps =>
        rw [List.cons_append] at heq
        injection heq with h1 h2
        refine ⟨head :: p :: ps, post, ?_, ?_, hpost⟩
        · rw [List.cons_append, List.cons_append, ← h1, ← h2]
        · intro x hx
          have hp : p.length < (longestResponse r rs).length :=
            hpre p (List.mem_cons_self _ _)
          rcases List.mem_cons.mp hx with rfl | hx
          · calc x.length < r.length := hgt
              _ = p.length := congrArg ValidResponse.length h1
              _ < _ := hp
          · exact hpre x hx
    · have hstep : longestResponse head (r :: rs) = longestResponse head rs := by
        unfold longestResponse
        rw [List.foldl_cons, if_neg hgt]
      obtain ⟨pre, post, heq, hpre, hpost⟩ := ih head
      rw [hstep]
      cases pre with
      | nil =>
        rw [List.nil_append] at heq
        injection heq with h1 h2
        refine ⟨[], r :: post, ?_, by simp, ?_⟩
        · rw [List.nil_append, ← h1, ← h2]
        · intro x hx
          rcases List.mem_cons.mp hx with rfl | hx
          · calc x.length ≤ head.length := le_of_not_lt hgt
              _ = (longestResponse head rs).length := congrArg ValidResponse.length h1
          · exact hpost x hx
      | cons p ps =>
        rw [List.cons_append] at heq
        injection heq with h1 h2
        refine ⟨p :: r :: ps, post, ?_, ?_, hpost⟩
        · rw [List.cons_append, List.cons_append, ← h1, ← h2]
        · intro x hx
          have hp : p.length < (longestResponse head rs).length :=
            hpre p (List.mem_cons_self _ _)
          rcases List.mem_cons.mp hx with rfl | hx
          · exact hp
          · rcases List.mem_cons.mp hx with rfl | hx
            · calc x.length ≤ head.length := le_of_not_lt hgt
                _ = p.length := congrArg ValidResponse.length h1
                _ < _ := hp
            · exact hpre x (List.mem_cons_of_mem _ hx)

/-- Characterisation of an appended "additional insight": it comes from a
sentence of a *different* provider's response, no base sentence is
`> 0.7`-similar to it, its raw length is strictly between 20 and 150, and
it is rendered as `source: trimmed-sentence`. -/
lemma mem_extractUniqueDetails {base : ValidResponse} {all : List ValidResponse} {d : String}
    (hd : d ∈ extractUniqueDetails base all) :
    ∃ resp, resp ∈ all ∧ resp.source ≠ base.source ∧
      ∃ s, s ∈ splitIntoSentences resp.text ∧
        (∀ bs ∈ splitIntoSentences base.text,
          jsGT (calculateTextSimilarity s bs) (7 / 10) = false) ∧
        20 < s.length ∧ s.length < 150 ∧
        d = resp.source ++ ": " ++ jsTrim s := by
  unfold extractUniqueDetails at hd
  have hd' := List.take_subset _ _ hd
  rw [List.mem_flatten] at hd'
  obtain ⟨l, hl, hdl⟩ := hd'
  rw [List.mem_map] at hl
  obtain ⟨resp, hresp, rfl⟩ := hl
  by_cases hsrc : (resp.source == base.source) = true
  · rw [if_pos hsrc] at hdl
    simp at hdl
  · rw [if_neg hsrc] at hdl
    rw [List.mem_filterMap] at hdl
    obtain ⟨s, hs, hsome⟩ := hdl
    have hne : resp.source ≠ base.source := by
      intro h
      exact hsrc (by rw [h]; exact beq_self_eq_true _)
    refine ⟨resp, hresp, hne, s, hs, ?_⟩
    dsimp only at hsome
    split at hsome
    · rename_i hcond
      rw [Bool.and_eq_true, Bool.and_eq_true] at hcond
      obtain ⟨⟨hu, h20⟩, h150⟩ := hcond
      rw [Bool.not_eq_true', List.any_eq_false] at hu
      refine ⟨fun bs hbs => ?_, of_decide_eq_true h20, of_decide_eq_true h150,
        (Option.some.inj hsome).symm⟩
      exact Bool.eq_false_iff.mpr (hu bs hbs)
    · exact Option.noConfusion hsome

/-- C10: every additional-insight entry produced by `extractUniqueDetails`
derives from a sentence whose raw character length is strictly greater than
20 and strictly less than 150 (the `sentence.length > 20 && sentence.length
< 150` filter), rendered as `source: trimmed-sentence`; sentences outside
that window never appear. -/
theorem insight_length_window (base : ValidResponse) (all : List ValidResponse) (d : String)
    (hd : d ∈ extractUniqueDetails base all) :
    ∃ resp, resp ∈ all ∧ ∃ s, s ∈ splitIntoSentences resp.text ∧
      20 < s.length ∧ s.length < 150 ∧ d = resp.source ++ ": " ++ jsTrim s := by
  obtain ⟨resp, hresp, -, s, hs, -, h20, h150, hform⟩ := mem_extractUniqueDetails hd
  exact ⟨resp, hresp, s, hs, h20, h150, hform⟩

/-- Witness for `insight_length_window` on a concrete pair of responses. -/
theorem insight_length_window_witness :
    ∃ resp,
      resp ∈ ([⟨"Openai", "alpha beta gamma delta epsilon", 30⟩,
        ⟨"Anthropic", "completely different words here", 31⟩] : List ValidResponse) ∧
      ∃ s, s ∈ splitIntoSentences resp.text ∧ 20 < s.length ∧ s.length < 150 ∧
        "Anthropic: completely different words here" = resp.source ++ ": " ++ jsTrim s :=
  insight_length_window ⟨"Openai", "alpha beta gamma delta epsilon", 30⟩
    [⟨"Openai", "alpha beta gamma delta epsilon", 30⟩,
     ⟨"Anthropic", "completely different words here", 31⟩]
    "Anthropic: completely different words here" (by with_unfolding_all decide)

set_option maxRecDepth 100000 in
/-- C6 (counterexample): the claim says no appended insight is a
near-duplicate (pairwise Jaccard ≥ 0.70) of any base sentence.  But the
code's uniqueness test is strict (`> 0.7`): here the single appended
insight `s6text` has Jaccard similarity exactly 0.70 = 7/10 to the single
base sentence `a6text`, yet it is appended to the answer. -/
theorem consensus_duplicate_at_boundary_cex :
    (synthesizeResponses cex6input).approach = "consensus" ∧
    (synthesizeResponses cex6input).synthesizedAnswer =
      a6text ++ "\n\n**Additional insights:**\n• Anthropic: " ++ s6text ∧
    splitIntoSentences a6text = [a6text] ∧
    calculateTextSimilarity s6text a6text = some (7 / 10) := by
  refine ⟨by with_unfolding_all decide, by with_unfolding_all decide, by decide,
    by with_unfolding_all decide⟩

/-- C6 (amended): with ≥ 2 valid responses and defined mean similarity
≥ 0.70, the answer is the text of the longest valid response (character
count, ties broken by the earliest provider: all responses before the base
are strictly shorter, all after are no longer), followed by at most 3
additional-insight sentences, each drawn from a different provider than the
base, each tagged `source: …`, and each such that *no* base sentence has
Jaccard similarity *strictly greater than* 0.70 to it (at exactly 0.70 the
code still appends, as the counterexample shows); sentences are fragments
split on `.`/`!`/`?` whose trimmed length exceeds 10. -/
theorem consensus_answer_structure (m : List (String × ProviderEntry)) (q : ℚ)
    (h2 : 2 ≤ (validResponses m).length)
    (havg : avgSimilarity (validResponses m) = some q) (hq : 7 / 10 ≤ q) :
    ∃ base pre post,
      validResponses m = pre ++ base :: post ∧
      (∀ x ∈ pre, x.length < base.length) ∧
      (∀ x ∈ post, x.length ≤ base.length) ∧
      (synthesizeResponses m).synthesizedAnswer =
        base.text ++
          (if (extractUniqueDetails base (validResponses m)).length > 0 then
            "\n\n**Additional insights:**\n" ++
              String.intercalate "\n"
                ((extractUniqueDetails base (validResponses m)).map (fun detail => "• " ++ detail))
          else "") ∧
      (extractUniqueDetails base (validResponses m)).length ≤ 3 ∧
      ∀ d ∈ extractUniqueDetails base (validResponses m),
        ∃ resp, resp ∈ validResponses m ∧ resp.source ≠ base.source ∧
          ∃ s, s ∈ splitIntoSentences resp.text ∧
            (∀ bs ∈ splitIntoSentences base.text,
              jsGT (calculateTextSimilarity s bs) (7 / 10) = false) ∧
            d = resp.source ++ ": " ++ jsTrim s := by
  cases hv : validResponses m with
  | nil =>
    rw [hv] at h2
    simp at h2
  | cons r1 tail =>
    cases tail with
    | nil =>
      rw [hv] at h2
      simp at h2
    | cons r2 rest =>
      rw [hv] at havg
      obtain ⟨pre, post, heq, hpre, hpost⟩ := longestResponse_spec r1 (r2 :: rest)
      refine ⟨longestResponse r1 (r2 :: rest), pre, post, heq, hpre, hpost, ?_, ?_, ?_⟩
      · unfold synthesizeResponses
        rw [hv]
        dsimp only
        rw [havg]
        unfold jsGE
        rw [if_pos (by simpa using hq)]
        dsimp only
        by_cases hlen :
            (extractUniqueDetails (longestResponse r1 (r2 :: rest)) (r1 :: r2 :: rest)).length > 0
        · rw [if_pos hlen, if_pos hlen, String.append_assoc]
        · rw [if_neg hlen, if_neg hlen, String.append_empty]
      · unfold extractUniqueDetails
        dsimp only
        rw [List.length_take]
        exact min_le_left _ _
      · intro d hd
        obtain ⟨resp, hresp, hne, s, hs, huniq, -, -, hform⟩ := mem_extractUniqueDetails hd
        exact ⟨resp, hresp, hne, s, hs, huniq, hform⟩

/-- Witness for `consensus_answer_structure` at the concrete 0.70-mean
input `wit5input`. -/
theorem consensus_answer_structure_witness :
    ∃ base pre post,
      validResponses wit5input = pre ++ base :: post ∧
      (∀ x ∈ pre, x.length < base.length) ∧
      (∀ x ∈ post, x.length ≤ base.length) ∧
      (synthesizeResponses wit5input).synthesizedAnswer =
        base.text ++
          (if (extractUniqueDetails base (validResponses wit5input)).length > 0 then
            "\n\n**Additional insights:**\n" ++
              String.intercalate "\n"
                ((extractUniqueDetails base (validResponses wit5input)).map
                  (fun detail => "• " ++ detail))
          else "") ∧
      (extractUniqueDetails base (validResponses wit5input)).length ≤ 3 ∧
      ∀ d ∈ extractUniqueDetails base (validResponses wit5input),
        ∃ resp, resp ∈ validResponses wit5input ∧ resp.source ≠ base.source ∧
          ∃ s, s ∈ splitIntoSentences resp.text ∧
            (∀ bs ∈ splitIntoSentences base.text,
              jsGT (calculateTextSimilarity s bs) (7 / 10) = false) ∧
            d = resp.source ++ ": " ++ jsTrim s :=
  consensus_answer_structure wit5input (7 / 10) (by decide)
    (by with_unfolding_all decide) (le_refl _)
